import Mathlib

/-!
Verification of the dual-dialect data-access layer and the period-based
revenue aggregation engine of the HornERP repository, as a shallow
embedding in Lean.

Conventions of the embedding:
* money amounts and summed quantities are rationals;
* SQL NULL is `Option`;
* the outcome of an external event (a network handshake, a statement
  failing on the backend) is an explicit boolean parameter;
* Python exceptions are `Except String`.
-/

namespace HornERP

/-! ### Connection provider (src/db_connector.py, class DBHandler) -/

/-- Process-wide configuration read at import time of db_connector.py.
`database_url` models `DATABASE_URL`, computed from the environment as
`os.environ.get("DATABASE_URL") or os.environ.get("RENDER")` (`none` when
both variables are absent or falsy); `has_postgres` models the
`HAS_POSTGRES` flag set by the try/except around the psycopg2 import. -/
structure DbConfig where
  database_url : Option String
  has_postgres : Bool
deriving DecidableEq

/-- Result of `DBHandler.get_connection()`: a psycopg2 connection with the
given url and sslmode, the `None` returned after printing a connection
error, or a sqlite3 connection to the given file with the given timeout. -/
inductive ConnResult where
  | postgres (url : String) (sslmode : String)
  | connError
  | sqlite (file : String) (timeout : Nat)
deriving DecidableEq

/-- The truthiness test `DATABASE_URL and HAS_POSTGRES` used by all three
static methods of DBHandler. -/
def DbConfig.usePostgres (cfg : DbConfig) : Bool :=
  cfg.database_url.isSome && cfg.has_postgres

/-- `DBHandler.get_connection()` (db_connector.py lines 68-82).
`pgConnectOk` models whether `psycopg2.connect(DATABASE_URL, sslmode=require)`
succeeds, i.e. whether the server is reachable and the TLS handshake can be
established. On failure the source prints the error and returns `None`
(here `connError`); when the postgres branch is not taken it opens
sqlite3.connect("horn.db", timeout=30). -/
def get_connection (cfg : DbConfig) (pgConnectOk : Bool) : ConnResult :=
  if cfg.usePostgres then
    if pgConnectOk then ConnResult.postgres (cfg.database_url.getD "") "require"
    else ConnResult.connError
  else ConnResult.sqlite "horn.db" 30

/-- `DBHandler.get_placeholder()` (db_connector.py lines 84-89), a pure
function of the configuration. -/
def get_placeholder (cfg : DbConfig) : String :=
  if cfg.usePostgres then "%s" else "?"

/-- `DBHandler.get_auto_id_sql()` (db_connector.py lines 91-96), a pure
function of the configuration. -/
def get_auto_id_sql (cfg : DbConfig) : String :=
  if cfg.usePostgres then "SERIAL PRIMARY KEY" else "INTEGER PRIMARY KEY AUTOINCREMENT"

/-- Whether `get_connection` targets the networked backend under `cfg`:
the connection attempt branch is taken, so a successful handshake yields a
postgres connection. -/
def targetsNetworked (cfg : DbConfig) : Bool :=
  match get_connection cfg true with
  | ConnResult.postgres _ _ => true
  | _ => false

/-- C7 counterexample: with the connection string present but the driver
module unavailable, a configuration under which no handshake can be
established, `get_connection` returns an embedded sqlite connection instead
of a connection error — it does not fail closed. -/
theorem C7_fail_closed_counterexample :
    get_connection { database_url := some "postgres://host/db", has_postgres := false } false
      = ConnResult.sqlite "horn.db" 30
    ∧ get_connection { database_url := some "postgres://host/db", has_postgres := false } false
      ≠ ConnResult.connError := by
  constructor
  · rfl
  · decide

/-- C7 (amended): when the connection string is present AND the networked
driver module is importable, `get_connection` targets the networked backend
with sslmode=require and fails closed: a failed handshake yields a
connection error, never a silent fallback to the embedded backend. -/
theorem C7_tls_fail_closed (cfg : DbConfig) (ok : Bool)
    (hurl : cfg.database_url.isSome = true) (hpg : cfg.has_postgres = true) :
    get_connection cfg ok
      = (if ok then ConnResult.postgres (cfg.database_url.getD "") "require"
         else ConnResult.connError)
    ∧ (∀ f t, get_connection cfg ok ≠ ConnResult.sqlite f t) := by
  have hu : cfg.usePostgres = true := by
    simp [DbConfig.usePostgres, hurl, hpg]
  constructor
  · simp [get_connection, hu]
  · intro f t
    simp [get_connection, hu]
    cases ok <;> simp

/-- Witness for `C7_tls_fail_closed` at a concrete configuration with a
failing handshake. -/
theorem C7_tls_fail_closed_witness :
    (({ database_url := some "postgres://host/db", has_postgres := true } : DbConfig).database_url.isSome = true)
    ∧ (({ database_url := some "postgres://host/db", has_postgres := true } : DbConfig).has_postgres = true)
    ∧ (get_connection { database_url := some "postgres://host/db", has_postgres := true } false
        = (if false then ConnResult.postgres ((some "postgres://host/db").getD "") "require"
           else ConnResult.connError)
       ∧ (∀ f t, get_connection { database_url := some "postgres://host/db", has_postgres := true } false
            ≠ ConnResult.sqlite f t)) :=
  ⟨rfl, rfl, C7_tls_fail_closed _ false rfl rfl⟩

/-- C9: the two pure provider queries agree with the backend selected by
`get_connection`: they answer `%s` and `SERIAL PRIMARY KEY` exactly when it
targets the networked backend, and `?` and
`INTEGER PRIMARY KEY AUTOINCREMENT` exactly when it targets the embedded
one. Both are plain functions of the configuration, with no effect. -/
theorem C9_provider_queries_agree (cfg : DbConfig) :
    ((get_placeholder cfg = "%s" ∧ get_auto_id_sql cfg = "SERIAL PRIMARY KEY")
       ↔ targetsNetworked cfg = true)
    ∧ ((get_placeholder cfg = "?" ∧ get_auto_id_sql cfg = "INTEGER PRIMARY KEY AUTOINCREMENT")
       ↔ targetsNetworked cfg = false) := by
  unfold get_placeholder get_auto_id_sql targetsNetworked get_connection
  cases hu : cfg.usePostgres <;> simp [hu]

/-- C10: when the connection string is present but the networked driver is
unavailable at import time, `get_connection` silently returns an embedded
sqlite connection to the fixed local file horn.db with busy timeout 30,
regardless of any handshake outcome — the configured networked backend is
ignored and no connection error is reported. -/
theorem C10_driver_missing_silent_sqlite (url : String) (ok : Bool) :
    get_connection { database_url := some url, has_postgres := false } ok
      = ConnResult.sqlite "horn.db" 30
    ∧ get_connection { database_url := some url, has_postgres := false } ok
      ≠ ConnResult.connError := by
  constructor
  · rfl
  · intro h
    exact ConnResult.noConfusion h

/-! ### Dialect adapter (src/db_connector.py, SafeCursor and SafeConnection) -/

/-- Character-level semantics of the Python call `sql.replace("?", "%s")`:
since the needle is a single character, replacing every occurrence is the
same as substituting each `?` character by the two characters `%s`. -/
def replaceQChars : List Char → List Char
  | [] => []
  | c :: rest => if c = '?' then '%' :: 's' :: replaceQChars rest else c :: replaceQChars rest

/-- The query-text rewrite performed by `SafeCursor.execute`
(db_connector.py lines 20-25): on the postgres backend every occurrence of
the canonical placeholder `?` in the whole query string is replaced by
`%s`; on sqlite the text is left unchanged. -/
def rewriteSql (db_type sql : String) : String :=
  if db_type = "postgres" then String.mk (replaceQChars sql.data) else sql

/-- Observable actions the adapter performs. -/
inductive DbAction where
  | execRaw (sql : String)
  | logError (db_type sql : String)
  | rollback
deriving DecidableEq

/-- State of one backend connection. `poisoned` models the postgres
transaction-abort behaviour the spec describes: after any failed statement
the transaction refuses further statements until rolled back. The sqlite
backend never poisons. -/
structure ConnState where
  db_type : String
  poisoned : Bool
deriving DecidableEq

/-- Environment semantics of the raw driver cursor executing one
statement. `fails` says whether the statement itself fails on a clean
connection; on postgres a statement issued inside a poisoned transaction
fails regardless, and any failure poisons the transaction. Returns the new
state and whether execution succeeded. -/
def rawExec (st : ConnState) (fails : Bool) : ConnState × Bool :=
  if st.db_type = "postgres" then
    if st.poisoned then (st, false)
    else if fails then ({ st with poisoned := true }, false)
    else (st, true)
  else (st, !fails)

/-- `SafeCursor.execute` (db_connector.py lines 20-33): rewrite the
placeholder for postgres, run the statement, and on failure print the
error with the backend name and rewritten query text, then re-raise. No
other action is taken on failure; in particular the adapter never issues
a rollback. Returns the new connection state, whether the call returned
normally (`false` means the exception was re-raised), and the trace of
actions performed. -/
def safeCursorExecute (st : ConnState) (sql : String) (fails : Bool) :
    ConnState × Bool × List DbAction :=
  let sql2 := rewriteSql st.db_type sql
  let r := rawExec st fails
  if r.2 then (r.1, true, [DbAction.execRaw sql2])
  else (r.1, false, [DbAction.execRaw sql2, DbAction.logError st.db_type sql2])

/-- `SafeConnection.rollback` (db_connector.py line 59): delegates to the
driver rollback, which clears a poisoned postgres transaction. -/
def safeConnectionRollback (st : ConnState) : ConnState :=
  { st with poisoned := false }

/-- C1 counterexample: a failing insert through the adapter on the
networked backend produces a trace with no rollback action, and the very
next statement on the same connection FAILS (the transaction was left
poisoned), contradicting the claim that the adapter rolls back and the
next statement succeeds. -/
theorem C1_rollback_counterexample :
    (safeCursorExecute { db_type := "postgres", poisoned := false }
        "INSERT INTO offline_sales (id) VALUES (?)" true).2.2
      = [DbAction.execRaw "INSERT INTO offline_sales (id) VALUES (%s)",
         DbAction.logError "postgres" "INSERT INTO offline_sales (id) VALUES (%s)"]
    ∧ DbAction.rollback ∉ (safeCursorExecute { db_type := "postgres", poisoned := false }
        "INSERT INTO offline_sales (id) VALUES (?)" true).2.2
    ∧ (safeCursorExecute (safeCursorExecute { db_type := "postgres", poisoned := false }
        "INSERT INTO offline_sales (id) VALUES (?)" true).1 "SELECT 1" false).2.1 = false := by
  decide

/-- C1 (amended): on a failing statement the adapter logs the error with
the backend name and rewritten query text and re-raises WITHOUT issuing a
rollback; on the networked backend the transaction is therefore left
poisoned and the very next statement on the same connection fails, until
the caller itself invokes rollback on the connection (as the report
generators do). -/
theorem C1_no_adapter_rollback (sql next : String) (st : ConnState)
    (hdb : st.db_type = "postgres") (hclean : st.poisoned = false) :
    (safeCursorExecute st sql true).2.2
      = [DbAction.execRaw (rewriteSql "postgres" sql),
         DbAction.logError "postgres" (rewriteSql "postgres" sql)]
    ∧ DbAction.rollback ∉ (safeCursorExecute st sql true).2.2
    ∧ (safeCursorExecute st sql true).2.1 = false
    ∧ (safeCursorExecute (safeCursorExecute st sql true).1 next false).2.1 = false
    ∧ (safeCursorExecute (safeConnectionRollback (safeCursorExecute st sql true).1) next false).2.1
        = true := by
  obtain ⟨d, p⟩ := st
  simp only at hdb hclean
  subst hdb; subst hclean
  refine ⟨rfl, ?_, rfl, rfl, rfl⟩
  simp [safeCursorExecute, rawExec, List.mem_cons]

/-- Witness for `C1_no_adapter_rollback` at a concrete failing insert. -/
theorem C1_no_adapter_rollback_witness :
    ({ db_type := "postgres", poisoned := false } : ConnState).db_type = "postgres"
    ∧ ({ db_type := "postgres", poisoned := false } : ConnState).poisoned = false
    ∧ ((safeCursorExecute { db_type := "postgres", poisoned := false } "INSERT INTO t VALUES (?)" true).2.2
        = [DbAction.execRaw (rewriteSql "postgres" "INSERT INTO t VALUES (?)"),
           DbAction.logError "postgres" (rewriteSql "postgres" "INSERT INTO t VALUES (?)")]
       ∧ DbAction.rollback ∉ (safeCursorExecute { db_type := "postgres", poisoned := false }
            "INSERT INTO t VALUES (?)" true).2.2
       ∧ (safeCursorExecute { db_type := "postgres", poisoned := false }
            "INSERT INTO t VALUES (?)" true).2.1 = false
       ∧ (safeCursorExecute (safeCursorExecute { db_type := "postgres", poisoned := false }
            "INSERT INTO t VALUES (?)" true).1 "SELECT 1" false).2.1 = false
       ∧ (safeCursorExecute (safeConnectionRollback
            (safeCursorExecute { db_type := "postgres", poisoned := false }
              "INSERT INTO t VALUES (?)" true).1) "SELECT 1" false).2.1 = true) :=
  ⟨rfl, rfl, C1_no_adapter_rollback "INSERT INTO t VALUES (?)" "SELECT 1" _ rfl rfl⟩

/-- Every `?` is gone after the character-level replacement. -/
theorem replaceQChars_no_q (l : List Char) : '?' ∉ replaceQChars l := by
  induction l with
  | nil => simp [replaceQChars]
  | cons c rest ih =>
    by_cases h : c = '?'
    · simp [replaceQChars, h, List.mem_cons]
      exact ih
    · simp [replaceQChars, h, List.mem_cons]
      exact ⟨fun hq => h hq.symm, ih⟩

/-- C8: on the networked backend the adapter executes the query text
obtained by replacing every occurrence of the canonical placeholder `?`
by `%s` over the ENTIRE query string (the first action of every execution
trace is the rewritten text and no `?` survives the rewrite), and on a
query containing `?` inside a SQL string literal the contents of the
literal are altered before execution. -/
theorem C8_naive_placeholder_rewrite :
    (∀ (sql : String) (fails p : Bool),
      (safeCursorExecute { db_type := "postgres", poisoned := p } sql fails).2.2.head?
        = some (DbAction.execRaw (rewriteSql "postgres" sql)))
    ∧ (∀ sql : String, '?' ∉ (rewriteSql "postgres" sql).data)
    ∧ rewriteSql "postgres" "SELECT id FROM notes WHERE body = \x27ok?\x27"
        = "SELECT id FROM notes WHERE body = \x27ok%s\x27"
    ∧ rewriteSql "postgres" "SELECT id FROM notes WHERE body = \x27ok?\x27"
        ≠ "SELECT id FROM notes WHERE body = \x27ok?\x27" := by
  refine ⟨?_, ?_, by decide, by decide⟩
  · intro sql fails p
    cases hfp : rawExec { db_type := "postgres", poisoned := p } fails with
    | mk st2 ok => cases ok <;> simp [safeCursorExecute, hfp]
  · intro sql
    have : (rewriteSql "postgres" sql).data = replaceQChars sql.data := by
      simp [rewriteSql]
    rw [this]
    exact replaceQChars_no_q _

/-! ### Data model of the aggregation queries

Rows of the three tables the reporting queries read. Timestamps are the
text form the period predicates compare against; money and quantities are
rationals. -/

/-- A row of offline_sales. -/
structure Sale where
  id : Nat
  date_created : String
  customer_name : String
  cashier_name : String
  total_amount : ℚ
deriving DecidableEq

/-- A row of offline_sale_items. -/
structure SaleItem where
  sale_id : Nat
  product_name : String
  quantity : ℚ
  price : ℚ
deriving DecidableEq

/-- A row of products (category is NULLable, hence the COALESCE in the
Excel query). -/
structure Product where
  barcode : String
  name : String
  category : Option String
  price : ℚ
  stock : Int
  expiry_date : String
deriving DecidableEq

/-- SQL aggregate SUM over a column: NULL on an empty row set. -/
def sqlSum (l : List ℚ) : Option ℚ :=
  if l.isEmpty then none else some l.sum

/-- The Python idiom `res[0] if res and res[0] else 0.0` applied to a
fetched SUM: both NULL and a zero sum give 0.0. -/
def pyOrZero (o : Option ℚ) : ℚ :=
  o.getD 0

/-- The join `offline_sale_items i JOIN offline_sales s ON i.sale_id = s.id`
restricted to sales matching the period predicate: one row per matching
(item, sale) pair. -/
def joinItemsSales (items : List SaleItem) (sales : List Sale) (p : Sale → Bool) :
    List (SaleItem × Sale) :=
  items.flatMap (fun i => (sales.filter (fun s => p s && s.id == i.sale_id)).map (fun s => (i, s)))

/-- `SELECT SUM(total_amount) FROM offline_sales WHERE [predicate]`, with
the fetched NULL mapped to 0.0 (pdf_report.py lines 71-73, pos.py lines
407-409, excel_exporter.py lines 131-133). -/
def netRevenue (sales : List Sale) (p : Sale → Bool) : ℚ :=
  pyOrZero (sqlSum ((sales.filter p).map Sale.total_amount))

/-- `SELECT SUM(i.quantity * i.price)` over the join, NULL mapped to 0.0
(pdf_report.py lines 76-83). -/
def grossRevenue (items : List SaleItem) (sales : List Sale) (p : Sale → Bool) : ℚ :=
  pyOrZero (sqlSum ((joinItemsSales items sales p).map (fun r => r.1.quantity * r.1.price)))

/-- pdf_report.py line 85: `discounts = gross_amt - revenue_amt`, with no
clamping. -/
def pdfDiscounts (items : List SaleItem) (sales : List Sale) (p : Sale → Bool) : ℚ :=
  grossRevenue items sales p - netRevenue sales p

/-- Gross revenue as the spec words it: the sum of line-item price times
quantity over item rows whose parent sale matches the predicate. -/
def specGross (items : List SaleItem) (sales : List Sale) (p : Sale → Bool) : ℚ :=
  ((joinItemsSales items sales p).map (fun r => r.1.price * r.1.quantity)).sum

/-- Net revenue as the spec words it: the sum of stored sale totals over
sales matching the predicate. -/
def specNet (sales : List Sale) (p : Sale → Bool) : ℚ :=
  ((sales.filter p).map Sale.total_amount).sum

/-- The keys of a row list in order of first occurrence: a canonical
representative for the grouping of SQL GROUP BY, whose output order is
unspecified (result relations below quotient by permutation). -/
def dedupKeys (l : List String) : List String :=
  l.foldl (fun acc k => if k ∈ acc then acc else acc ++ [k]) []

/-- SUM(value) restricted to the rows with the given key. -/
def sumForKey (k : String) (rows : List (String × ℚ)) : ℚ :=
  ((rows.filter (fun r => r.1 = k)).map Prod.snd).sum

/-- `GROUP BY key` with `SUM(value)`: one output row per distinct key. -/
def groupSums (rows : List (String × ℚ)) : List (String × ℚ) :=
  (dedupKeys (rows.map Prod.fst)).map (fun k => (k, sumForKey k rows))

/-- The (product_name, quantity) rows fed to the top-products grouping. -/
def topProductRows (items : List SaleItem) (sales : List Sale) (p : Sale → Bool) :
    List (String × ℚ) :=
  (joinItemsSales items sales p).map (fun r => (r.1.product_name, r.1.quantity))

/-- `ORDER BY [value] DESC`: descending in the aggregated value. SQL does
not specify the relative order of tied rows. -/
def sortedDescByVal (l : List (String × ℚ)) : Prop :=
  List.Sorted (fun a b : String × ℚ => b.2 ≤ a.2) l

/-- Valid outputs of the top-products query of show_dashboard (pos.py
lines 422-431) and generate_business_report (pdf_report.py lines 104-112):
`GROUP BY i.product_name`, `SUM(i.quantity)`, `ORDER BY qty DESC LIMIT 5`.
An output is any 5-prefix of a descending ordering of the grouped rows. -/
def topProductsResult (items : List SaleItem) (sales : List Sale) (p : Sale → Bool)
    (out : List (String × ℚ)) : Prop :=
  ∃ full, full.Perm (groupSums (topProductRows items sales p))
    ∧ sortedDescByVal full ∧ out = full.take 5

/-- The (cashier_name, total_amount) rows of the employee performance
query (pos.py line 440). -/
def employeeRows (sales : List Sale) (p : Sale → Bool) : List (String × ℚ) :=
  (sales.filter p).map (fun s => (s.cashier_name, s.total_amount))

/-- Valid outputs of the employee performance query: GROUP BY cashier_name
with SUM(total_amount) and no ORDER BY, so any permutation of the grouped
rows. -/
def employeeStatsResult (sales : List Sale) (p : Sale → Bool)
    (out : List (String × ℚ)) : Prop :=
  out.Perm (groupSums (employeeRows sales p))

/-- The (customer_name, total_amount) rows of the customer insights query
(pos.py line 444). -/
def customerRows (sales : List Sale) (p : Sale → Bool) : List (String × ℚ) :=
  (sales.filter p).map (fun s => (s.customer_name, s.total_amount))

/-- Valid outputs of the customer insights query: GROUP BY customer_name,
SUM(total_amount), ORDER BY the sum DESC, LIMIT 5. -/
def customerStatsResult (sales : List Sale) (p : Sale → Bool)
    (out : List (String × ℚ)) : Prop :=
  ∃ full, full.Perm (groupSums (customerRows sales p))
    ∧ sortedDescByVal full ∧ out = full.take 5

/-- The rows of the Excel sales query (excel_exporter.py lines 102-120):
the item/sale join LEFT JOINed to products on product name, each row
carrying the COALESCEd category; a row with no product match is kept once
with category "General". -/
def excelSalesRows (items : List SaleItem) (sales : List Sale) (products : List Product)
    (p : Sale → Bool) : List (SaleItem × Sale × String) :=
  (joinItemsSales items sales p).flatMap (fun r =>
    let ms := products.filter (fun q => q.name = r.1.product_name)
    if ms.isEmpty then [(r.1, r.2, "General")]
    else ms.map (fun q => (r.1, r.2, q.category.getD "General")))

/-- excel_exporter.py lines 161-164: the Python accumulation
`gross_revenue += float(row[7] or 0)` over the fetched rows, where row[7]
is line_total = quantity * price. -/
def excelGrossRevenue (items : List SaleItem) (sales : List Sale) (products : List Product)
    (p : Sale → Bool) : ℚ :=
  (excelSalesRows items sales products p).foldl (fun acc r => acc + r.1.quantity * r.1.price) 0

/-- excel_exporter.py line 167: `discount_total = gross_revenue - float(net_revenue)`,
with no clamping. -/
def excelDiscountTotal (items : List SaleItem) (sales : List Sale) (products : List Product)
    (p : Sale → Bool) : ℚ :=
  excelGrossRevenue items sales products p - netRevenue sales p

/-- The NULL-defaulted SQL SUM equals the plain sum of the column. -/
theorem pyOrZero_sqlSum (l : List ℚ) : pyOrZero (sqlSum l) = l.sum := by
  unfold pyOrZero sqlSum
  rcases l with _ | ⟨a, t⟩
  · simp
  · simp [List.isEmpty_cons]

/-- Bridge: the net query computes the spec net. -/
theorem netRevenue_eq_specNet (sales : List Sale) (p : Sale → Bool) :
    netRevenue sales p = specNet sales p := by
  unfold netRevenue specNet
  exact pyOrZero_sqlSum _

/-- Bridge: the gross query computes the spec gross (quantity and price
commute). -/
theorem grossRevenue_eq_specGross (items : List SaleItem) (sales : List Sale)
    (p : Sale → Bool) : grossRevenue items sales p = specGross items sales p := by
  unfold grossRevenue specGross
  rw [pyOrZero_sqlSum]
  congr 1
  apply List.map_congr_left
  intro r _
  exact mul_comm _ _

/-- C2 counterexample: a dataset where the stored sale total exceeds the
item value (net 10, gross 2) makes the reported discount -8, which is
negative and not clamped to 0, contradicting the claim. -/
theorem C2_discount_clamp_counterexample :
    pdfDiscounts
      [{ sale_id := 1, product_name := "Apple", quantity := 2, price := 1 }]
      [{ id := 1, date_created := "2025-11-03 10:00:00", customer_name := "walk-in",
         cashier_name := "Ali", total_amount := 10 }]
      (fun _ => true) = -8
    ∧ pdfDiscounts
      [{ sale_id := 1, product_name := "Apple", quantity := 2, price := 1 }]
      [{ id := 1, date_created := "2025-11-03 10:00:00", customer_name := "walk-in",
         cashier_name := "Ali", total_amount := 10 }]
      (fun _ => true) < 0 := by
  have h : pdfDiscounts
      [{ sale_id := 1, product_name := "Apple", quantity := 2, price := 1 }]
      [{ id := 1, date_created := "2025-11-03 10:00:00", customer_name := "walk-in",
         cashier_name := "Ali", total_amount := 10 }]
      (fun _ => true) = -8 := by
    norm_num [pdfDiscounts, grossRevenue, netRevenue, joinItemsSales, sqlSum, pyOrZero,
      List.filter]
  exact ⟨h, by rw [h]; norm_num⟩

/-- C2 (amended): the reported discount is exactly gross revenue minus net
revenue with NO clamping, in both the PDF report (discounts =
gross_amt - revenue_amt) and the Excel export (discount_total =
gross_revenue - net_revenue); when net exceeds gross the reported value is
negative. -/
theorem C2_discount_formula (items : List SaleItem) (sales : List Sale)
    (products : List Product) (p : Sale → Bool) :
    pdfDiscounts items sales p = specGross items sales p - specNet sales p
    ∧ excelDiscountTotal items sales products p
        = excelGrossRevenue items sales products p - netRevenue sales p := by
  constructor
  · unfold pdfDiscounts
    rw [netRevenue_eq_specNet, grossRevenue_eq_specGross]
  · rfl

/-- C4: on the empty dataset every metric returns its typed default and no
error: the net and gross sums are 0.0 and the only valid output of each
group-by (top products, employee performance, customer performance) is the
empty sequence. All the embedded metric functions are total, so no input
raises. -/
theorem C4_empty_dataset_defaults (p : Sale → Bool) (out : List (String × ℚ)) :
    netRevenue [] p = 0
    ∧ grossRevenue [] [] p = 0
    ∧ (topProductsResult [] [] p out ↔ out = [])
    ∧ (employeeStatsResult [] p out ↔ out = [])
    ∧ (customerStatsResult [] p out ↔ out = []) := by
  have hg : groupSums (topProductRows [] [] p) = [] := rfl
  have he : groupSums (employeeRows [] p) = [] := rfl
  have hc : groupSums (customerRows [] p) = [] := rfl
  refine ⟨rfl, rfl, ?_, ?_, ?_⟩
  · constructor
    · rintro ⟨full, hperm, -, hout⟩
      rw [hg] at hperm
      rw [hout, List.Perm.eq_nil hperm]
      rfl
    · rintro rfl
      exact ⟨[], by rw [hg], List.sorted_nil, rfl⟩
  · constructor
    · intro hperm
      unfold employeeStatsResult at hperm
      rw [he] at hperm
      exact List.Perm.eq_nil hperm
    · rintro rfl
      unfold employeeStatsResult
      rw [he]
  · constructor
    · rintro ⟨full, hperm, -, hout⟩
      rw [hc] at hperm
      rw [hout, List.Perm.eq_nil hperm]
      rfl
    · rintro rfl
      exact ⟨[], by rw [hc], List.sorted_nil, rfl⟩

/-- Two item rows tied at quantity 2, attached to one sale: the fixture
for the tie-order question. -/
def tieItems : List SaleItem :=
  [{ sale_id := 1, product_name := "Apple", quantity := 2, price := 1 },
   { sale_id := 1, product_name := "Banana", quantity := 2, price := 1 }]

/-- The single sale the tie fixture items belong to. -/
def tieSales : List Sale :=
  [{ id := 1, date_created := "2025-11-03 10:00:00", customer_name := "walk-in",
     cashier_name := "Ali", total_amount := 4 }]

/-- Evaluation of the grouped rows on the tie fixture. -/
theorem tie_groupSums :
    groupSums (topProductRows tieItems tieSales (fun _ => true))
      = [("Apple", 2), ("Banana", 2)] := by
  simp +decide [groupSums, topProductRows, joinItemsSales, dedupKeys, sumForKey,
    tieItems, tieSales, List.filter]

/-- C5 counterexample: with two products tied at quantity 2, the output
listing Banana before Apple is a valid result of the query (it is
descending in quantity, and the query orders by nothing else), yet its tie
is not broken by product name ascending. -/
theorem C5_tie_order_counterexample :
    topProductsResult tieItems tieSales (fun _ => true) [("Banana", 2), ("Apple", 2)]
    ∧ ¬ List.Sorted
        (fun a b : String × ℚ => b.2 < a.2 ∨ (a.2 = b.2 ∧ a.1 ≤ b.1))
        [("Banana", (2 : ℚ)), ("Apple", 2)] := by
  constructor
  · refine ⟨[("Banana", 2), ("Apple", 2)], ?_, ?_, rfl⟩
    · rw [tie_groupSums]
      exact List.Perm.swap _ _ _
    · unfold sortedDescByVal
      simp [List.sorted_cons]
  · intro h
    have hrel := (List.sorted_cons.mp h).1 ("Apple", 2) (by simp)
    rcases hrel with hlt | ⟨-, hle⟩
    · exact absurd hlt (by norm_num)
    · refine absurd hle ?_
      rw [String.le_iff_toList_le]
      decide

/-- C5 (amended): the metric groups the joined item rows by product name
and sums quantity, every valid output is sorted descending by the summed
quantity, has at most 5 rows, and consists of grouped rows; but the query
orders only by the summed quantity, so the relative order of products tied
on quantity is unspecified rather than broken by product name ascending. -/
theorem C5_top_products_shape (items : List SaleItem) (sales : List Sale)
    (p : Sale → Bool) (out : List (String × ℚ))
    (h : topProductsResult items sales p out) :
    sortedDescByVal out
    ∧ out.length ≤ 5
    ∧ ∀ r ∈ out, r ∈ groupSums (topProductRows items sales p) := by
  obtain ⟨full, hperm, hsort, hout⟩ := h
  subst hout
  refine ⟨?_, ?_, ?_⟩
  · exact hsort.sublist (List.take_sublist 5 full)
  · exact List.length_take_le 5 full
  · intro r hr
    exact hperm.subset (List.mem_of_mem_take hr)

/-- Witness for `C5_top_products_shape` on the concrete two-product tie. -/
theorem C5_top_products_shape_witness :
    topProductsResult tieItems tieSales (fun _ => true) [("Apple", 2), ("Banana", 2)]
    ∧ (sortedDescByVal [("Apple", (2 : ℚ)), ("Banana", 2)]
       ∧ ([("Apple", (2 : ℚ)), ("Banana", 2)] : List (String × ℚ)).length ≤ 5
       ∧ ∀ r ∈ ([("Apple", (2 : ℚ)), ("Banana", 2)] : List (String × ℚ)),
           r ∈ groupSums (topProductRows tieItems tieSales (fun _ => true))) := by
  have hres : topProductsResult tieItems tieSales (fun _ => true)
      [("Apple", 2), ("Banana", 2)] := by
    refine ⟨[("Apple", 2), ("Banana", 2)], ?_, ?_, rfl⟩
    · rw [tie_groupSums]
    · unfold sortedDescByVal
      simp [List.sorted_cons]
  exact ⟨hres, C5_top_products_shape _ _ _ _ hres⟩

/-! ### Period resolution (pdf_report.py, excel_exporter.py, pos.py) -/

/-- The generic text cast used by the PDF period filters (pdf_report.py
line 51). -/
def date_col_cast : String := "CAST(date_created AS TEXT)"

/-- Period resolution of generate_business_report (pdf_report.py lines
53-65): the filter clause and period label built from the period string
and the precomputed date strings; any unknown period takes the else
branch, which is identical to the Daily branch. -/
def pdfResolvePeriod (period today_str month_str start_date : String) : String × String :=
  if period = "Daily" then
    (date_col_cast ++ " LIKE \x27" ++ today_str ++ "%\x27",
     "Daily Report (" ++ today_str ++ ")")
  else if period = "Weekly" then
    (date_col_cast ++ " >= \x27" ++ start_date ++ "\x27",
     "Weekly Report (Since " ++ start_date ++ ")")
  else if period = "Monthly" then
    (date_col_cast ++ " LIKE \x27" ++ month_str ++ "%\x27",
     "Monthly Report (" ++ month_str ++ ")")
  else
    (date_col_cast ++ " LIKE \x27" ++ today_str ++ "%\x27",
     "Daily Report (" ++ today_str ++ ")")

/-- The cast of the aliased column used by the Excel filters
(excel_exporter.py lines 71-73). -/
def excel_date_col_cast : String := "CAST(s.date_created AS TEXT)"

/-- Period resolution of export_to_excel (excel_exporter.py lines 75-84):
only the where clause is built; any unknown period takes the else branch,
identical to the Daily branch. -/
def excelResolvePeriod (period today_str month_str start_date : String) : String :=
  if period = "Daily" then excel_date_col_cast ++ " LIKE \x27" ++ today_str ++ "%\x27"
  else if period = "Weekly" then excel_date_col_cast ++ " >= \x27" ++ start_date ++ "\x27"
  else if period = "Monthly" then excel_date_col_cast ++ " LIKE \x27" ++ month_str ++ "%\x27"
  else excel_date_col_cast ++ " LIKE \x27" ++ today_str ++ "%\x27"

/-- Period resolution of HornERP.show_dashboard (pos.py lines 393-403).
The if/elif chain has NO else branch, so for any other period the local
variable where_clause is never assigned and its first use (in the revenue
query) raises NameError, modelled as `none`. -/
def dashResolvePeriod (period today_str month_str start_date : String) : Option String :=
  if period = "Daily" then
    some ("CAST(date_created AS TEXT) LIKE \x27" ++ today_str ++ "%\x27")
  else if period = "Weekly" then
    some ("date(date_created) >= \x27" ++ start_date ++ "\x27")
  else if period = "Monthly" then
    some ("CAST(date_created AS TEXT) LIKE \x27" ++ month_str ++ "%\x27")
  else none

/-- C6 counterexample: for the unknown period value Quarterly the
dashboard does NOT fall back to the Daily behaviour: its resolution is
undefined (a NameError at the first use of where_clause), while the Daily
resolution is a concrete clause. -/
theorem C6_dashboard_fallback_counterexample :
    dashResolvePeriod "Quarterly" "2025-11-03" "2025-11" "2025-10-27" = none
    ∧ dashResolvePeriod "Daily" "2025-11-03" "2025-11" "2025-10-27"
        = some "CAST(date_created AS TEXT) LIKE \x272025-11-03%\x27" := by
  constructor <;> rfl

/-- C6 (amended): for every period other than Daily, Weekly and Monthly
the PDF report and the Excel export fall back to the Daily behaviour
(identical filter clause, and for the PDF the Daily label), but the
dashboard does not: it resolves only the three known values and fails on
any other (unbound where_clause). -/
theorem C6_unknown_period_fallback (period today_str month_str start_date : String)
    (h1 : period ≠ "Daily") (h2 : period ≠ "Weekly") (h3 : period ≠ "Monthly") :
    pdfResolvePeriod period today_str month_str start_date
      = pdfResolvePeriod "Daily" today_str month_str start_date
    ∧ excelResolvePeriod period today_str month_str start_date
      = excelResolvePeriod "Daily" today_str month_str start_date
    ∧ dashResolvePeriod period today_str month_str start_date = none := by
  unfold pdfResolvePeriod excelResolvePeriod dashResolvePeriod
  simp [h1, h2, h3]

/-- Witness for `C6_unknown_period_fallback` at the period Quarterly. -/
theorem C6_unknown_period_fallback_witness :
    ("Quarterly" : String) ≠ "Daily"
    ∧ ("Quarterly" : String) ≠ "Weekly"
    ∧ ("Quarterly" : String) ≠ "Monthly"
    ∧ (pdfResolvePeriod "Quarterly" "2025-11-03" "2025-11" "2025-10-27"
        = pdfResolvePeriod "Daily" "2025-11-03" "2025-11" "2025-10-27"
       ∧ excelResolvePeriod "Quarterly" "2025-11-03" "2025-11" "2025-10-27"
        = excelResolvePeriod "Daily" "2025-11-03" "2025-11" "2025-10-27"
       ∧ dashResolvePeriod "Quarterly" "2025-11-03" "2025-11" "2025-10-27" = none) :=
  ⟨by decide, by decide, by decide,
   C6_unknown_period_fallback "Quarterly" "2025-11-03" "2025-11" "2025-10-27"
     (by decide) (by decide) (by decide)⟩

/-! ### Error propagation of the three report generators

The value-level semantics of the individual queries is modelled above
(netRevenue, grossRevenue, topProductsResult, ...). Here the control flow
of each generator is modelled over the outcomes of the statements it
issues: each field below is `none` when the corresponding statement raises
on the backend, otherwise the fetched rows. -/

/-- The 7-day revenue trend of the PDF report keeps the shape of whichever
query produced it: by-day grouping or the raw recent-sales fallback. -/
inductive TrendData where
  | byDay (rows : List (String × ℚ))
  | recentRaw (rows : List (String × ℚ))
deriving DecidableEq

/-- A fetched row of the detailed-transactions query of the PDF report:
(sale id, date_created, customer, product, quantity, price). -/
abbrev PdfDetailRow : Type := Nat × String × String × String × ℚ × ℚ

/-- Outcomes of the six statements generate_business_report issues, in
source order (pdf_report.py lines 71-123). -/
structure PdfQueryResults where
  netRes : Option (Option ℚ)
  grossRes : Option (Option ℚ)
  trendRes : Option (List (String × ℚ))
  trendFbRes : Option (List (String × ℚ))
  topRes : Option (List (String × ℚ))
  detailsRes : Option (List PdfDetailRow)

/-- The data generate_business_report gathers before rendering. -/
structure PdfReportData where
  revenue_amt : ℚ
  gross_amt : ℚ
  discounts : ℚ
  trend_data : TrendData
  top_products : List (String × ℚ)
  sales_data : List PdfDetailRow
deriving DecidableEq

/-- Control flow of generate_business_report (pdf_report.py lines 24-125):
the whole body sits in one try/except returning an error string, and only
the trend query has an inner try/except (rollback, then the raw
recent-sales fallback, whose own failure propagates to the outer
handler). -/
def generate_business_report (q : PdfQueryResults) : Except String PdfReportData :=
  match q.netRes with
  | none => Except.error "Error: query failed"
  | some netRow =>
  match q.grossRes with
  | none => Except.error "Error: query failed"
  | some grossRow =>
  match (match q.trendRes with
         | some rows => some (TrendData.byDay rows)
         | none =>
           match q.trendFbRes with
           | some rows => some (TrendData.recentRaw rows)
           | none => none) with
  | none => Except.error "Error: query failed"
  | some trend =>
  match q.topRes with
  | none => Except.error "Error: query failed"
  | some topRows =>
  match q.detailsRes with
  | none => Except.error "Error: query failed"
  | some detailRows =>
    Except.ok
      { revenue_amt := pyOrZero netRow
        gross_amt := pyOrZero grossRow
        discounts := pyOrZero grossRow - pyOrZero netRow
        trend_data := trend
        top_products := topRows
        sales_data := detailRows }

/-- Outcomes of the ten statements show_dashboard issues, in source order
(pos.py lines 407-447). -/
structure DashQueryResults where
  revenueRes : Option (Option ℚ)
  countRes : Option Nat
  customersRes : Option Nat
  topSellersRes : Option (List (String × ℚ))
  logsRes : Option (List (String × String × Int × String × String))
  lowStockRes : Option (List (String × Int))
  employeeRes : Option (List (String × ℚ))
  customerRes : Option (List (String × ℚ))
  productRevenueRes : Option (List (String × ℚ))
  expiryRes : Option (List (String × String))

/-- The data show_dashboard gathers before building the page. -/
structure DashData where
  revenue_amt : ℚ
  sales_count : Nat
  total_customers : Nat
  top_sellers : List (String × ℚ)
  recent_logs : List (String × String × Int × String × String)
  low_stock_items : List (String × Int)
  employee_stats : List (String × ℚ)
  customer_stats : List (String × ℚ)
  product_revenue_stats : List (String × ℚ)
  expiring_items : List (String × String)
deriving DecidableEq

/-- Control flow of the data-fetching part of show_dashboard (pos.py lines
405-465): only the expiry query has an inner try/except (defaulting to an
empty list, with no logging); any other failure reaches the outer handler
of show_dashboard, which replaces the whole page with an error text. -/
def show_dashboard_data (q : DashQueryResults) : Except String DashData :=
  match q.revenueRes with
  | none => Except.error "Dashboard Error"
  | some revRow =>
  match q.countRes with
  | none => Except.error "Dashboard Error"
  | some cnt =>
  match q.customersRes with
  | none => Except.error "Dashboard Error"
  | some cust =>
  match q.topSellersRes with
  | none => Except.error "Dashboard Error"
  | some sellers =>
  match q.logsRes with
  | none => Except.error "Dashboard Error"
  | some logs =>
  match q.lowStockRes with
  | none => Except.error "Dashboard Error"
  | some lowStock =>
  match q.employeeRes with
  | none => Except.error "Dashboard Error"
  | some emp =>
  match q.customerRes with
  | none => Except.error "Dashboard Error"
  | some custStats =>
  match q.productRevenueRes with
  | none => Except.error "Dashboard Error"
  | some prodRev =>
    Except.ok
      { revenue_amt := pyOrZero revRow
        sales_count := cnt
        total_customers := cust
        top_sellers := sellers
        recent_logs := logs
        low_stock_items := lowStock
        employee_stats := emp
        customer_stats := custStats
        product_revenue_stats := prodRev
        expiring_items := (q.expiryRes.getD []) }

/-- A fetched inventory row of the Excel export:
(barcode, name, category, price, stock, expiry). -/
abbrev ExcelInvRow : Type := String × String × String × ℚ × Int × String

/-- A fetched row of the Excel sales query (excel_exporter.py lines
102-117). -/
structure ExcelSalesRow where
  date_created : String
  cashier_name : String
  customer_name : String
  category : String
  product_name : String
  quantity : ℚ
  price : ℚ
  line_total : ℚ
deriving DecidableEq

/-- Outcomes of the four statements export_to_excel issues, in source
order (excel_exporter.py lines 91-133). -/
structure ExcelQueryResults where
  invRes : Option (List ExcelInvRow)
  invFbRes : Option (List ExcelInvRow)
  salesRes : Option (List ExcelSalesRow)
  netRes : Option (Option ℚ)

/-- The data export_to_excel gathers, including the summary figures the
generation phase computes from the fetched rows (excel_exporter.py lines
161-171). -/
structure ExcelData where
  inventory_data : List ExcelInvRow
  sales_data : List ExcelSalesRow
  net_revenue : ℚ
  gross_revenue : ℚ
  discount_total : ℚ
deriving DecidableEq

/-- The generation-phase accumulation
`gross_revenue += float(row[7] or 0)` over the fetched sales rows. -/
def excelGrossOfRows (rows : List ExcelSalesRow) : ℚ :=
  rows.foldl (fun acc r => acc + r.line_total) 0

/-- Control flow of export_to_excel (excel_exporter.py lines 91-137 and
161-171): the inventory query falls back to a reduced query after a
rollback (the fallback's own failure propagates out of the function, which
has no outer try/except); the sales query degrades to an empty list with
the failure printed; the net query degrades to 0.0 silently. -/
def export_to_excel (q : ExcelQueryResults) : Except String ExcelData :=
  match (match q.invRes with
         | some rows => some rows
         | none => q.invFbRes) with
  | none => Except.error "query failed"
  | some invRows =>
    let sales_data := q.salesRes.getD []
    let net_revenue :=
      match q.netRes with
      | none => 0
      | some row => pyOrZero row
    Except.ok
      { inventory_data := invRows
        sales_data := sales_data
        net_revenue := net_revenue
        gross_revenue := excelGrossOfRows sales_data
        discount_total := excelGrossOfRows sales_data - net_revenue }

/-- C3 counterexample: in the PDF report a failure of the net-revenue
query alone (all other queries succeeding) aborts the whole report with an
error string instead of degrading that one metric to 0.0, and in the
dashboard a failure of the employee-performance query alone aborts the
whole page with an error instead of returning the other metrics. -/
theorem C3_partial_failure_counterexample :
    generate_business_report
      { netRes := none, grossRes := some (some 5), trendRes := some [("2025-11-03", 5)],
        trendFbRes := some [], topRes := some [("Apple", 2)],
        detailsRes := some [(1, "2025-11-03 10:00:00", "walk-in", "Apple", 2, 1)] }
      = Except.error "Error: query failed"
    ∧ show_dashboard_data
      { revenueRes := some (some 5), countRes := some 1, customersRes := some 3,
        topSellersRes := some [("Apple", 2)], logsRes := some [], lowStockRes := some [],
        employeeRes := none, customerRes := some [("walk-in", 5)],
        productRevenueRes := some [("Apple", 2)], expiryRes := some [] }
      = Except.error "Dashboard Error" := by
  exact ⟨rfl, rfl⟩

/-- C3 (amended): only designated sub-queries degrade independently — the
PDF trend query (falling back, after a rollback, to the raw recent-sales
query), the dashboard expiry query (defaulting to an empty list, without
logging), and the Excel inventory (reduced fallback query), sales (empty
list, logged) and net-revenue (0.0) queries; the failure of any OTHER
sub-metric query aborts the whole aggregation: the PDF generator returns
an error string, the dashboard shows an error page, and a failure of the
Excel inventory fallback escapes the function. -/
theorem C3_partial_failure_scoped
    (netRow grossRow : Option ℚ) (fbRows topRows trendRows : List (String × ℚ))
    (details : List PdfDetailRow) (d : DashQueryResults) (invRows fbInvRows : List ExcelInvRow)
    (salesRows : List ExcelSalesRow) :
    generate_business_report
      { netRes := some netRow, grossRes := some grossRow, trendRes := none,
        trendFbRes := some fbRows, topRes := some topRows, detailsRes := some details }
      = Except.ok
        { revenue_amt := pyOrZero netRow, gross_amt := pyOrZero grossRow,
          discounts := pyOrZero grossRow - pyOrZero netRow,
          trend_data := TrendData.recentRaw fbRows,
          top_products := topRows, sales_data := details }
    ∧ (∀ g t f tp dt, generate_business_report
        { netRes := none, grossRes := g, trendRes := t, trendFbRes := f,
          topRes := tp, detailsRes := dt } = Except.error "Error: query failed")
    ∧ (∀ f dt, generate_business_report
        { netRes := some netRow, grossRes := some grossRow, trendRes := some trendRows,
          trendFbRes := f, topRes := none, detailsRes := dt }
        = Except.error "Error: query failed")
    ∧ show_dashboard_data
      { revenueRes := d.revenueRes, countRes := d.countRes, customersRes := d.customersRes,
        topSellersRes := d.topSellersRes, logsRes := d.logsRes, lowStockRes := d.lowStockRes,
        employeeRes := d.employeeRes, customerRes := d.customerRes,
        productRevenueRes := d.productRevenueRes, expiryRes := none }
      = show_dashboard_data
      { revenueRes := d.revenueRes, countRes := d.countRes, customersRes := d.customersRes,
        topSellersRes := d.topSellersRes, logsRes := d.logsRes, lowStockRes := d.lowStockRes,
        employeeRes := d.employeeRes, customerRes := d.customerRes,
        productRevenueRes := d.productRevenueRes, expiryRes := some [] }
    ∧ (∀ e : ExcelQueryResults, export_to_excel
        { invRes := some invRows, invFbRes := e.invFbRes, salesRes := none,
          netRes := some netRow }
      = Except.ok
        { inventory_data := invRows, sales_data := [], net_revenue := pyOrZero netRow,
          gross_revenue := 0, discount_total := 0 - pyOrZero netRow })
    ∧ export_to_excel
      { invRes := some invRows, invFbRes := none, salesRes := some salesRows, netRes := none }
      = Except.ok
        { inventory_data := invRows, sales_data := salesRows, net_revenue := 0,
          gross_revenue := excelGrossOfRows salesRows,
          discount_total := excelGrossOfRows salesRows - 0 }
    ∧ export_to_excel
      { invRes := none, invFbRes := some fbInvRows, salesRes := some salesRows,
        netRes := some netRow }
      = Except.ok
        { inventory_data := fbInvRows, sales_data := salesRows,
          net_revenue := pyOrZero netRow,
          gross_revenue := excelGrossOfRows salesRows,
          discount_total := excelGrossOfRows salesRows - pyOrZero netRow }
    ∧ (∀ s n, export_to_excel { invRes := none, invFbRes := none, salesRes := s, netRes := n }
        = Except.error "query failed") := by
  refine ⟨rfl, fun g t f tp dt => ?_, fun f dt => rfl, ?_, fun e => rfl, rfl, rfl,
    fun s n => rfl⟩
  · rfl
  · cases hq : d.revenueRes <;> cases hc : d.countRes <;> cases hcu : d.customersRes <;>
      cases hts : d.topSellersRes <;> cases hl : d.logsRes <;> cases hls : d.lowStockRes <;>
      cases he : d.employeeRes <;> cases hcs : d.customerRes <;> cases hpr : d.productRevenueRes <;>
      rfl

end HornERP
